import Mathlib

set_option maxRecDepth 100000

/-!
Shallow embedding of the smart-doorbell streaming core
(`src/camera/streamer.py` and `src/doorbell/doorbell_manager.py`).

Python enum values are modelled as inductive types; because Python lets any
object reach the builder's `else: raise ValueError(...)` branch, each source
enum carries an extra `unknown` constructor standing for a value outside the
enum.  GStreamer/GLib side effects (parse_launch, set_state, main loop,
thread) are modelled by an environment record `GstEnv` describing how the
external primitives behave, and an effect trace `List GstEffect` recording
the calls a lifecycle operation performs.  Exceptions are `Except.error`.
-/

namespace Doorbell

/-- CameraSource enum from streamer.py; `unknown` models any value outside
the enum reaching the builder's else-branch. -/
inductive CameraSource where
  | TEST_PATTERN
  | V4L2
  | LIBCAMERA
  | unknown (repr : String)
deriving DecidableEq, Repr

/-- AudioSource enum from streamer.py; `unknown` models any value outside
the enum reaching the builder's else-branch. -/
inductive AudioSource where
  | TEST_TONE
  | ALSA
  | PULSE
  | NONE
  | unknown (repr : String)
deriving DecidableEq, Repr

/-- True exactly on the three members of the Python CameraSource enum. -/
def CameraSource.recognized : CameraSource → Bool
  | .unknown _ => false
  | _ => true

/-- One `!`-separated element of the GStreamer launch description:
an element kind plus its property assignments, in source order. -/
structure Stage where
  kind : String
  props : List (String × String)
deriving DecidableEq, Repr

def Stage.isSource (st : Stage) : Bool :=
  st.kind == "videotestsrc" || st.kind == "v4l2src" || st.kind == "libcamerasrc"

def Stage.isNetworkSink (st : Stage) : Bool :=
  st.kind == "rtspclientsink"

def Stage.isEncoder (st : Stage) : Bool :=
  st.kind == "x264enc" || st.kind == "v4l2h264enc"

def Stage.isFormatConvert (st : Stage) : Bool :=
  st.kind == "videoconvert"

def Stage.isParser (st : Stage) : Bool :=
  st.kind == "h264parse"

/-- The mutable attribute record of a `CameraStreamer` instance
(`self.*` in streamer.py).  `video_pipeline`/`audio_pipeline` hold the
parsed launch description when a pipeline object is referenced; `loop` and
`thread` record whether the GLib main-loop / worker-thread references are
set; `is_running` and `stop_requested` are the two lifecycle flags. -/
structure CameraStreamer where
  video_source : CameraSource
  audio_source : AudioSource
  rtsp_url : String
  width : Nat
  height : Nat
  framerate : Nat
  video_bitrate : Nat
  audio_device : Option String
  audio_bitrate : Nat
  use_hardware_encoding : Bool
  video_pipeline : Option String
  audio_pipeline : Option String
  loop : Bool
  thread : Bool
  is_running : Bool
  stop_requested : Bool
deriving DecidableEq, Repr

/-- CameraStreamer.__init__. -/
def CameraStreamer.init (video_source : CameraSource) (audio_source : AudioSource)
    (rtsp_host : String) (rtsp_port : Nat) (stream_name : String)
    (width height framerate video_bitrate : Nat)
    (audio_device : Option String) (audio_bitrate : Nat)
    (use_hardware_encoding : Bool) : CameraStreamer :=
  { video_source := video_source
    audio_source := audio_source
    rtsp_url := "rtsp://" ++ rtsp_host ++ ":" ++ toString rtsp_port ++ "/" ++ stream_name
    width := width
    height := height
    framerate := framerate
    video_bitrate := video_bitrate
    audio_device := audio_device
    audio_bitrate := audio_bitrate
    use_hardware_encoding := use_hardware_encoding
    video_pipeline := none
    audio_pipeline := none
    loop := false
    thread := false
    is_running := false
    stop_requested := false }

/-- The video caps string of CameraStreamer._build_video_pipeline_string. -/
def CameraStreamer.video_caps (s : CameraStreamer) : String :=
  "video/x-raw,width=" ++ toString s.width ++ ",height=" ++ toString s.height
    ++ ",framerate=" ++ toString s.framerate ++ "/1"

/-- The encoder fragment of CameraStreamer._build_video_pipeline_string
(`video_encoder` variable): hardware v4l2h264enc with a caps constraint, or
software x264enc (Python `self.video_bitrate//1000` is Nat division). -/
def CameraStreamer.video_encoder (s : CameraStreamer) : String :=
  if s.use_hardware_encoding then
    "v4l2h264enc extra-controls=\"controls,video_bitrate=" ++ toString s.video_bitrate
      ++ "\" ! video/x-h264,profile=baseline,level=(string)3.1"
  else
    "x264enc bitrate=" ++ toString (s.video_bitrate / 1000)
      ++ " speed-preset=ultrafast tune=zerolatency key-int-max="
      ++ toString (s.framerate * 2) ++ " bframes=0 ! video/x-h264,profile=baseline"

/-- CameraStreamer._build_video_pipeline_string, char-for-char transcription:
source selection may raise ValueError (modelled as `Except.error`), then the
full launch description is concatenated. -/
def CameraStreamer.build_video_pipeline_string (s : CameraStreamer) :
    Except String String :=
  match s.video_source with
  | .TEST_PATTERN => Except.ok ("videotestsrc is-live=true ! " ++ s.video_caps
      ++ " ! videoconvert ! video/x-raw,format=I420 ! " ++ s.video_encoder
      ++ " ! h264parse config-interval=-1 ! rtspclientsink location=" ++ s.rtsp_url
      ++ " protocols=tcp latency=200")
  | .V4L2 => Except.ok ("v4l2src device=/dev/video0 ! " ++ s.video_caps
      ++ " ! videoconvert ! video/x-raw,format=I420 ! " ++ s.video_encoder
      ++ " ! h264parse config-interval=-1 ! rtspclientsink location=" ++ s.rtsp_url
      ++ " protocols=tcp latency=200")
  | .LIBCAMERA => Except.ok ("libcamerasrc ! " ++ s.video_caps
      ++ " ! videoconvert ! video/x-raw,format=I420 ! " ++ s.video_encoder
      ++ " ! h264parse config-interval=-1 ! rtspclientsink location=" ++ s.rtsp_url
      ++ " protocols=tcp latency=200")
  | .unknown r => Except.error ("Unknown video source: " ++ r)

/-- The encoder stages of the typed graph: the encoder element followed by
its output caps constraint, mirroring the two `!`-separated elements of the
`video_encoder` fragment. -/
def CameraStreamer.encoder_stages (s : CameraStreamer) : List Stage :=
  if s.use_hardware_encoding then
    [⟨"v4l2h264enc", [("extra-controls", "controls,video_bitrate=" ++ toString s.video_bitrate)]⟩,
     ⟨"capsfilter", [("caps", "video/x-h264,profile=baseline,level=(string)3.1")]⟩]
  else
    [⟨"x264enc", [("bitrate", toString (s.video_bitrate / 1000)),
                  ("speed-preset", "ultrafast"),
                  ("tune", "zerolatency"),
                  ("key-int-max", toString (s.framerate * 2)),
                  ("bframes", "0")]⟩,
     ⟨"capsfilter", [("caps", "video/x-h264,profile=baseline")]⟩]

/-- Everything after the source element of the typed graph: caps, convert,
I420 caps, encoder stages, parser, network sink. -/
def CameraStreamer.graph_tail (s : CameraStreamer) : List Stage :=
  ⟨"capsfilter", [("caps", s.video_caps)]⟩ ::
  ⟨"videoconvert", []⟩ ::
  ⟨"capsfilter", [("caps", "video/x-raw,format=I420")]⟩ ::
  (s.encoder_stages ++
    [⟨"h264parse", [("config-interval", "-1")]⟩,
     ⟨"rtspclientsink", [("location", s.rtsp_url), ("protocols", "tcp"), ("latency", "200")]⟩])

/-- CameraStreamer._build_video_pipeline_string read as the spec's typed
PipelineGraph: one Stage per `!`-separated element of the launch string, in
the same order and with the same property values. -/
def CameraStreamer.build_video_pipeline (s : CameraStreamer) :
    Except String (List Stage) :=
  match s.video_source with
  | .TEST_PATTERN => Except.ok (⟨"videotestsrc", [("is-live", "true")]⟩ :: s.graph_tail)
  | .V4L2 => Except.ok (⟨"v4l2src", [("device", "/dev/video0")]⟩ :: s.graph_tail)
  | .LIBCAMERA => Except.ok (⟨"libcamerasrc", []⟩ :: s.graph_tail)
  | .unknown r => Except.error ("Unknown video source: " ++ r)

/-- Result of CameraStreamer._build_audio_pipeline_string.  The Python
function returns None both on `audio_source == NONE` (no audio stage
emitted, line 148) and after building a source fragment for a recognized
kind (warning "Audio streaming not yet fully implemented", line 166); the
two paths are distinguished here, the second keeping the source fragment it
computed before discarding it. -/
inductive AudioBuildResult where
  | no_audio
  | unsupported (src : String)
deriving DecidableEq, Repr

/-- CameraStreamer._build_audio_pipeline_string: `no_audio` for NONE,
`unsupported` (warn-and-return-None) for the recognized kinds, ValueError
for anything else. -/
def CameraStreamer.build_audio_pipeline_string (s : CameraStreamer) :
    Except String AudioBuildResult :=
  match s.audio_source with
  | .NONE => Except.ok .no_audio
  | .TEST_TONE => Except.ok (.unsupported "audiotestsrc is-live=true wave=ticks")
  | .ALSA =>
      match s.audio_device with
      | some d => Except.ok (.unsupported ("alsasrc device=" ++ d))
      | none => Except.ok (.unsupported "alsasrc")
  | .PULSE => Except.ok (.unsupported "pulsesrc")
  | .unknown r => Except.error ("Unknown audio source: " ++ r)

/-- How the external GStreamer primitives behave during one `start()` call:
whether `Gst.parse_launch` succeeds and whether `set_state(PLAYING)` returns
`Gst.StateChangeReturn.FAILURE`. -/
structure GstEnv where
  parse_launch_ok : Bool
  play_ret_failure : Bool
deriving DecidableEq, Repr

/-- The externally visible calls a lifecycle operation performs, in order. -/
inductive GstEffect where
  | parse_launch (desc : String)
  | add_bus_watch
  | set_state_playing
  | set_state_null
  | loop_quit
  | thread_join
  | warn_already_running
  | warn_audio_not_implemented
deriving DecidableEq, Repr

/-- CameraStreamer.stop.  `from_worker` is true when the caller runs on the
notification worker thread (Python `threading.current_thread() == self.thread`),
in which case the join (and clearing of the thread reference) is skipped.
Note the guard: a streamer that is neither running nor stop-requested
returns immediately without touching the pipeline references. -/
def CameraStreamer.stop (s : CameraStreamer) (from_worker : Bool) :
    CameraStreamer × List GstEffect :=
  if !s.is_running && !s.stop_requested then (s, [])
  else
    let s1 := { s with stop_requested := true }
    let (s2, fx1) :=
      match s1.video_pipeline with
      | some _ => ({ s1 with video_pipeline := none }, [GstEffect.set_state_null])
      | none => (s1, [])
    let (s3, fx2) :=
      match s2.audio_pipeline with
      | some _ => ({ s2 with audio_pipeline := none }, [GstEffect.set_state_null])
      | none => (s2, [])
    let (s4, fx3) :=
      if s3.loop then ({ s3 with loop := false }, [GstEffect.loop_quit]) else (s3, [])
    let (s5, fx4) :=
      if s4.thread && !from_worker then ({ s4 with thread := false }, [GstEffect.thread_join])
      else (s4, [])
    ({ s5 with is_running := false }, fx1 ++ fx2 ++ fx3 ++ fx4)

/-- CameraStreamer.start.  Returns the instance state after the call, the
outcome (Except.error models the re-raised exception), and the trace of
external calls performed.  The `except` handler runs `self.stop()` before
re-raising; that call is made from the calling thread, not the worker. -/
def CameraStreamer.start (s : CameraStreamer) (env : GstEnv) :
    CameraStreamer × Except String Unit × List GstEffect :=
  if s.is_running then (s, Except.ok (), [GstEffect.warn_already_running])
  else
    match s.build_video_pipeline_string with
    | Except.error e =>
        let (s1, fx) := s.stop false
        (s1, Except.error e, fx)
    | Except.ok desc =>
        if !env.parse_launch_ok then
          let (s1, fx) := s.stop false
          (s1, Except.error "parse_launch failed", GstEffect.parse_launch desc :: fx)
        else
          let sP := { s with video_pipeline := some desc }
          if env.play_ret_failure then
            let (s1, fx) := sP.stop false
            (s1, Except.error "Unable to set video pipeline to PLAYING state",
              GstEffect.parse_launch desc :: GstEffect.add_bus_watch ::
                GstEffect.set_state_playing :: fx)
          else
            let audioFx :=
              if s.audio_source ≠ AudioSource.NONE then [GstEffect.warn_audio_not_implemented]
              else []
            ({ sP with loop := true, thread := true, is_running := true,
                       stop_requested := false },
             Except.ok (),
             GstEffect.parse_launch desc :: GstEffect.add_bus_watch ::
               GstEffect.set_state_playing :: audioFx)

/-- A message delivered to CameraStreamer._on_bus_message. -/
inductive GstMessage where
  | error (detail : String)
  | warning (detail : String)
  | eos
  | state_changed (src_is_pipeline : Bool) (old new : String)
deriving DecidableEq, Repr

/-- CameraStreamer._on_bus_message: error and EOS quit the main loop (the
reference itself stays set); warnings and state changes only log.  No
instance attribute is modified on any path. -/
def CameraStreamer.on_bus_message (s : CameraStreamer) (m : GstMessage) :
    CameraStreamer × List GstEffect :=
  match m with
  | .error _ => (s, if s.loop then [GstEffect.loop_quit] else [])
  | .warning _ => (s, [])
  | .eos => (s, if s.loop then [GstEffect.loop_quit] else [])
  | .state_changed _ _ _ => (s, [])

/-- CameraStreamer.is_streaming. -/
def CameraStreamer.is_streaming (s : CameraStreamer) : Bool :=
  s.is_running

/-- The statistics dictionary returned by CameraStreamer.get_stats when a
pipeline is referenced. -/
structure Stats where
  is_running : Bool
  rtsp_url : String
  resolution : String
  framerate : Nat
  video_bitrate : Nat
  audio_enabled : Bool
  audio_bitrate : Nat
deriving DecidableEq, Repr

/-- CameraStreamer.get_stats: `none` models the empty dict `\x7b\x7d`
returned when `self.video_pipeline` is not set. -/
def CameraStreamer.get_stats (s : CameraStreamer) : Option Stats :=
  match s.video_pipeline with
  | none => none
  | some _ =>
      some { is_running := s.is_running
             rtsp_url := s.rtsp_url
             resolution := toString s.width ++ "x" ++ toString s.height
             framerate := s.framerate
             video_bitrate := s.video_bitrate
             audio_enabled := false
             audio_bitrate := 0 }

/-- DoorbellState enum from doorbell_manager.py. -/
inductive DoorbellState where
  | STOPPED
  | STARTING
  | RUNNING
  | STOPPING
  | ERROR
deriving DecidableEq, Repr

/-- The configuration keys DoorbellManager._start_camera reads from the
nested config dictionary.  Source kinds stay strings here: the manager maps
them to enums through lookup tables that can fail (KeyError). -/
structure DoorbellConfig where
  video_source : String
  video_width : Nat
  video_height : Nat
  video_framerate : Nat
  video_bitrate : Nat
  video_hardware_encoding : Bool
  audio_enabled : Bool
  audio_source : String
  audio_device : Option String
  audio_bitrate : Nat
  rtsp_host : String
  rtsp_port : Nat
  rtsp_stream_name : String
deriving DecidableEq, Repr

/-- DoorbellManager._default_config (the keys the core reads). -/
def default_config : DoorbellConfig :=
  { video_source := "test"
    video_width := 1920
    video_height := 1080
    video_framerate := 30
    video_bitrate := 2000000
    video_hardware_encoding := false
    audio_enabled := false
    audio_source := "none"
    audio_device := none
    audio_bitrate := 64000
    rtsp_host := "127.0.0.1"
    rtsp_port := 8554
    rtsp_stream_name := "doorbell" }

/-- video_source_map from DoorbellManager._start_camera; `none` models the
KeyError a dictionary lookup raises on an unknown key. -/
def video_source_map : String → Option CameraSource
  | "test" => some .TEST_PATTERN
  | "v4l2" => some .V4L2
  | "libcamera" => some .LIBCAMERA
  | _ => none

/-- audio_source_map from DoorbellManager._start_camera. -/
def audio_source_map : String → Option AudioSource
  | "none" => some .NONE
  | "test" => some .TEST_TONE
  | "alsa" => some .ALSA
  | "pulse" => some .PULSE
  | _ => none

/-- The mutable attribute record of a DoorbellManager instance. -/
structure DoorbellManager where
  config : DoorbellConfig
  state : DoorbellState
  camera_streamer : Option CameraStreamer
  shutdown_requested : Bool
deriving DecidableEq, Repr

/-- DoorbellManager.__init__. -/
def DoorbellManager.init (config : Option DoorbellConfig) : DoorbellManager :=
  { config := config.getD default_config
    state := DoorbellState.STOPPED
    camera_streamer := none
    shutdown_requested := false }

/-- DoorbellManager._start_camera: map the config strings to enum values
(KeyError on unknown key), construct the CameraStreamer, store the
reference, then call its start(); any exception propagates after the
reference has been assigned. -/
def DoorbellManager.start_camera (m : DoorbellManager) (env : GstEnv) :
    DoorbellManager × Except String Unit :=
  match video_source_map m.config.video_source with
  | none => (m, Except.error ("KeyError: " ++ m.config.video_source))
  | some vs =>
      match audio_source_map m.config.audio_source with
      | none => (m, Except.error ("KeyError: " ++ m.config.audio_source))
      | some asrc =>
          let streamer := CameraStreamer.init vs asrc m.config.rtsp_host
            m.config.rtsp_port m.config.rtsp_stream_name m.config.video_width
            m.config.video_height m.config.video_framerate m.config.video_bitrate
            m.config.audio_device m.config.audio_bitrate
            m.config.video_hardware_encoding
          match streamer.start env with
          | (s1, r, _fx) => ({ m with camera_streamer := some s1 }, r)

/-- DoorbellManager._stop_camera combined with DoorbellManager.stop: no-op
when already STOPPED; otherwise set STOPPING, stop and drop the camera
streamer (its stop runs on the calling thread), then set STOPPED.  The
returned effects are those of the underlying streamer stop. -/
def DoorbellManager.stop (m : DoorbellManager) :
    DoorbellManager × List GstEffect :=
  if m.state = DoorbellState.STOPPED then (m, [])
  else
    let m1 := { m with state := DoorbellState.STOPPING }
    let (m2, fx) :=
      match m1.camera_streamer with
      | some s => ({ m1 with camera_streamer := none }, (s.stop false).2)
      | none => (m1, [])
    ({ m2 with state := DoorbellState.STOPPED }, fx)

/-- DoorbellManager.start: no-op when already RUNNING; otherwise set
STARTING, start the camera subsystem; on success set RUNNING, on failure
set ERROR, run a full stop(), and re-raise the originating error. -/
def DoorbellManager.start (m : DoorbellManager) (env : GstEnv) :
    DoorbellManager × Except String Unit :=
  if m.state = DoorbellState.RUNNING then (m, Except.ok ())
  else
    match ({ m with state := DoorbellState.STARTING }).start_camera env with
    | (m2, Except.ok _) => ({ m2 with state := DoorbellState.RUNNING }, Except.ok ())
    | (m2, Except.error e) =>
        (({ m2 with state := DoorbellState.ERROR }).stop.1, Except.error e)

/-- How DoorbellManager.run's supervisory while-loop ends: the condition
became false (shutdown flag set by a signal handler, or state no longer
RUNNING), or an exception was raised in the loop body and caught by the
`except Exception` clause.  The loop body itself (sleep plus an optional
get_status read) modifies no manager attribute. -/
inductive LoopExit where
  | normal
  | caught (e : String)
deriving DecidableEq, Repr

/-- DoorbellManager.run: signal handlers are registered, start() is called
outside the try (its exception propagates out of run), then the loop runs
until `exitKind` occurs and the `finally` block calls stop(). -/
def DoorbellManager.run (m : DoorbellManager) (env : GstEnv)
    (exitKind : LoopExit) : DoorbellManager × Except String Unit :=
  match m.start env with
  | (m1, Except.error e) => (m1, Except.error e)
  | (m1, Except.ok _) =>
      match exitKind with
      | LoopExit.normal => ((m1.stop).1, Except.ok ())
      | LoopExit.caught _ => ((m1.stop).1, Except.ok ())

/-- Environment in which the GStreamer primitives all succeed. -/
def goodEnv : GstEnv := { parse_launch_ok := true, play_ret_failure := false }

/-- Environment in which construction succeeds but `set_state(PLAYING)`
reports FAILURE (a simulated activation failure). -/
def failEnv : GstEnv := { parse_launch_ok := true, play_ret_failure := true }

/-- A freshly constructed streamer with the configuration of the spec's
build scenario: test-pattern video, no audio, 1920x1080@30, 2 Mbit/s,
software encoding, sink 127.0.0.1:8554/doorbell. -/
def freshStreamer : CameraStreamer :=
  CameraStreamer.init CameraSource.TEST_PATTERN AudioSource.NONE
    "127.0.0.1" 8554 "doorbell" 1920 1080 30 2000000 none 64000 false

/-- The streamer after one successful start(). -/
def runningStreamer : CameraStreamer := (freshStreamer.start goodEnv).1

/-- Same configuration as `freshStreamer` but with an ALSA audio source. -/
def alsaStreamer : CameraStreamer :=
  CameraStreamer.init CameraSource.TEST_PATTERN AudioSource.ALSA
    "127.0.0.1" 8554 "doorbell" 1920 1080 30 2000000 none 64000 false

/-- A streamer whose video source is outside the CameraSource enum. -/
def unknownStreamer : CameraStreamer :=
  CameraStreamer.init (CameraSource.unknown "garbage") AudioSource.NONE
    "127.0.0.1" 8554 "doorbell" 1920 1080 30 2000000 none 64000 false

/-- The graph build() actually yields for the spec's scenario config: eight
stages, including the I420 raw-format caps between format-convert and
encoder and the baseline-profile caps between encoder and parser. -/
def c6Graph : List Stage :=
  [⟨"videotestsrc", [("is-live", "true")]⟩,
   ⟨"capsfilter", [("caps", "video/x-raw,width=1920,height=1080,framerate=30/1")]⟩,
   ⟨"videoconvert", []⟩,
   ⟨"capsfilter", [("caps", "video/x-raw,format=I420")]⟩,
   ⟨"x264enc", [("bitrate", "2000"), ("speed-preset", "ultrafast"),
                ("tune", "zerolatency"), ("key-int-max", "60"), ("bframes", "0")]⟩,
   ⟨"capsfilter", [("caps", "video/x-h264,profile=baseline")]⟩,
   ⟨"h264parse", [("config-interval", "-1")]⟩,
   ⟨"rtspclientsink", [("location", "rtsp://127.0.0.1:8554/doorbell"),
                       ("protocols", "tcp"), ("latency", "200")]⟩]

/-- C6 (amended): for the scenario config the builder yields exactly the
eight-stage graph `c6Graph` — the six stages the claim lists plus the
I420 raw-format caps stage and the baseline-profile caps stage — and the
launch string is exactly the corresponding textual pipeline. -/
theorem C6_amended_graph :
    freshStreamer.build_video_pipeline = Except.ok c6Graph ∧
    freshStreamer.build_video_pipeline_string = Except.ok
      ("videotestsrc is-live=true ! video/x-raw,width=1920,height=1080,framerate=30/1"
        ++ " ! videoconvert ! video/x-raw,format=I420 ! x264enc bitrate=2000"
        ++ " speed-preset=ultrafast tune=zerolatency key-int-max=60 bframes=0"
        ++ " ! video/x-h264,profile=baseline ! h264parse config-interval=-1"
        ++ " ! rtspclientsink location=rtsp://127.0.0.1:8554/doorbell protocols=tcp latency=200") :=
  ⟨rfl, rfl⟩

/-- C6 (counterexample): the graph built for the scenario config has eight
stages, not the six the claim lists exhaustively. -/
theorem C6_counterexample :
    freshStreamer.build_video_pipeline.map List.length = Except.ok 8 ∧ (8 : Nat) ≠ 6 :=
  ⟨rfl, by decide⟩

/-- C1 (code bug): a fresh streamer whose activation primitive reports
FAILURE re-raises from start(), yet the internal pipeline reference is NOT
released — stop() early-returns because neither is_running nor
_stop_requested is set on a first start, so video_pipeline stays set. -/
theorem C1_dangling_pipeline_bug :
    (freshStreamer.start failEnv).2.1
        = Except.error "Unable to set video pipeline to PLAYING state" ∧
    (freshStreamer.start failEnv).1.video_pipeline.isSome = true :=
  ⟨rfl, rfl⟩

/-- C4 (code bug): after that failed start(), is_streaming() is false and
neither accessor raises, but get_stats() returns the full statistics
snapshot (video_pipeline is still referenced), not the empty snapshot. -/
theorem C4_stats_not_empty_bug :
    (freshStreamer.start failEnv).1.is_streaming = false ∧
    ((freshStreamer.start failEnv).1.get_stats).isSome = true :=
  ⟨rfl, rfl⟩

/-- C3 (counterexample): with the stream Running, delivering a bus error
message leaves is_streaming() returning true, not false — the handler only
quits the notification loop and records no fault. -/
theorem C3_counterexample :
    runningStreamer.is_streaming = true ∧
    (runningStreamer.on_bus_message (GstMessage.error "simulated")).1.is_streaming = true :=
  ⟨rfl, rfl⟩

/-- C2 (counterexample): with the default config and a simulated activation
failure, the coordinator's start() re-raises the error but returns with
state STOPPED, not ERROR — stop() (called from the except handler after the
transient ERROR assignment) drives the state through STOPPING to STOPPED. -/
theorem C2_counterexample :
    ((DoorbellManager.init none).start failEnv).1.state = DoorbellState.STOPPED ∧
    ((DoorbellManager.init none).start failEnv).2
        = Except.error "Unable to set video pipeline to PLAYING state" ∧
    DoorbellState.STOPPED ≠ DoorbellState.ERROR :=
  ⟨rfl, rfl, by decide⟩

/-- DoorbellManager.stop from any state other than STOPPED ends with state
STOPPED and no camera streamer referenced. -/
lemma DoorbellManager.stop_resets (m : DoorbellManager)
    (h : m.state ≠ DoorbellState.STOPPED) :
    (m.stop).1.state = DoorbellState.STOPPED ∧ (m.stop).1.camera_streamer = none := by
  unfold DoorbellManager.stop
  rw [if_neg h]
  cases hc : m.camera_streamer <;> simp [hc]

/-- C2 (amended): whenever a subsystem failure makes the coordinator's
start() re-raise, the coordinator has run a full stop() (the camera
subsystem is stopped and dropped) and its state on return is STOPPED — the
ERROR state is only transient before the cleanup stop(). -/
theorem C2_amended_start_failure (m : DoorbellManager) (env : GstEnv)
    (m' : DoorbellManager) (e : String)
    (h : m.start env = (m', Except.error e)) :
    m'.state = DoorbellState.STOPPED ∧ m'.camera_streamer = none := by
  unfold DoorbellManager.start at h
  split at h
  · simp at h
  · rcases hsc : ({ m with state := DoorbellState.STARTING } : DoorbellManager).start_camera env
      with ⟨m2, r⟩
    rw [hsc] at h
    cases r with
    | ok u => simp at h
    | error e2 =>
        simp only [Prod.mk.injEq] at h
        obtain ⟨hm, -⟩ := h
        rw [← hm]
        exact DoorbellManager.stop_resets _ (by simp)

/-- C2 witness for the amended theorem, at the default config with a
simulated activation failure. -/
theorem C2_amended_witness :
    (((DoorbellManager.init none).start failEnv).1).state = DoorbellState.STOPPED :=
  (C2_amended_start_failure (DoorbellManager.init none) failEnv
    ((DoorbellManager.init none).start failEnv).1
    "Unable to set video pipeline to PLAYING state" rfl).1

/-- C5: for every configuration with a recognized video source kind and
positive width/height/framerate/bitrate, build() yields a graph whose first
stage is a source stage and whose last stage is the network sink, with
exactly one encoder stage, located between a format-conversion stage and a
parser stage. -/
theorem C5_build_structure (s : CameraStreamer)
    (hrec : s.video_source.recognized = true)
    (hw : 0 < s.width) (hh : 0 < s.height)
    (hf : 0 < s.framerate) (hb : 0 < s.video_bitrate) :
    ∃ g, s.build_video_pipeline = Except.ok g ∧
      g.head?.map Stage.isSource = some true ∧
      g.getLast?.map Stage.isNetworkSink = some true ∧
      g.countP (fun st => st.isEncoder) = 1 ∧
      ∃ i j k : Nat, i < j ∧ j < k ∧
        (g.get? i).map Stage.isFormatConvert = some true ∧
        (g.get? j).map Stage.isEncoder = some true ∧
        (g.get? k).map Stage.isParser = some true := by
  obtain ⟨vs, asrc, url, w, hgt, fr, br, adev, abr, hwe, vp, ap, lp, th, ir, sr⟩ := s
  cases vs with
  | unknown r => exact Bool.noConfusion hrec
  | TEST_PATTERN =>
      cases hwe <;>
        exact ⟨_, rfl, rfl, rfl, rfl, 2, 4, 6, by decide, by decide, rfl, rfl, rfl⟩
  | V4L2 =>
      cases hwe <;>
        exact ⟨_, rfl, rfl, rfl, rfl, 2, 4, 6, by decide, by decide, rfl, rfl, rfl⟩
  | LIBCAMERA =>
      cases hwe <;>
        exact ⟨_, rfl, rfl, rfl, rfl, 2, 4, 6, by decide, by decide, rfl, rfl, rfl⟩

/-- C5 witness at the scenario configuration. -/
theorem C5_witness :
    ∃ g, freshStreamer.build_video_pipeline = Except.ok g ∧
      g.head?.map Stage.isSource = some true ∧
      g.getLast?.map Stage.isNetworkSink = some true ∧
      g.countP (fun st => st.isEncoder) = 1 ∧
      ∃ i j k : Nat, i < j ∧ j < k ∧
        (g.get? i).map Stage.isFormatConvert = some true ∧
        (g.get? j).map Stage.isEncoder = some true ∧
        (g.get? k).map Stage.isParser = some true :=
  C5_build_structure freshStreamer rfl (by decide) (by decide) (by decide) (by decide)

/-- C7: a configuration whose video source kind is outside the recognized
enum makes build() fail (ValueError, the spec's ConfigError) and no graph
value is produced on that path. -/
theorem C7_unknown_source (s : CameraStreamer) (r : String)
    (h : s.video_source = CameraSource.unknown r) :
    s.build_video_pipeline = Except.error ("Unknown video source: " ++ r) ∧
    s.build_video_pipeline_string = Except.error ("Unknown video source: " ++ r) ∧
    ∀ g, s.build_video_pipeline ≠ Except.ok g := by
  have h1 : s.build_video_pipeline = Except.error ("Unknown video source: " ++ r) := by
    unfold CameraStreamer.build_video_pipeline
    rw [h]
  have h2 : s.build_video_pipeline_string = Except.error ("Unknown video source: " ++ r) := by
    unfold CameraStreamer.build_video_pipeline_string
    rw [h]
  refine ⟨h1, h2, ?_⟩
  intro g hg
  rw [h1] at hg
  exact Except.noConfusion hg

/-- C7 witness at a concrete unrecognized source kind. -/
theorem C7_witness :
    unknownStreamer.build_video_pipeline
      = Except.error ("Unknown video source: " ++ "garbage") :=
  (C7_unknown_source unknownStreamer "garbage" rfl).1

/-- A start() call that returns without raising leaves is_running set. -/
lemma CameraStreamer.start_ok_running (s : CameraStreamer) (env : GstEnv)
    (s' : CameraStreamer) (tr : List GstEffect)
    (h : s.start env = (s', Except.ok (), tr)) : s'.is_running = true := by
  unfold CameraStreamer.start at h
  split at h
  next hr =>
    simp only [Prod.mk.injEq] at h
    obtain ⟨rfl, -⟩ := h
    exact hr
  next hr =>
    rcases hb : s.build_video_pipeline_string with e | desc
    · rw [hb] at h
      rcases hst : s.stop false with ⟨s1, fx⟩
      rw [hst] at h
      simp at h
    · rw [hb] at h
      by_cases hp : env.parse_launch_ok
      · simp only [hp, Bool.not_true, Bool.false_eq_true, if_false] at h
        by_cases hpl : env.play_ret_failure
        · rcases hst : ({ s with video_pipeline := some desc } : CameraStreamer).stop false
            with ⟨s1, fx⟩
          simp only [hpl, if_true, hst] at h
          simp at h
        · rw [if_neg hpl] at h
          simp only [Prod.mk.injEq] at h
          obtain ⟨hs, -⟩ := h
          rw [← hs]
      · rcases hst : s.stop false with ⟨s1, fx⟩
        simp only [hp, Bool.not_false, if_true, hst] at h
        simp at h

/-- C8: if a start() call succeeded, a second start() with no intervening
stop() is a warning no-op: the state is returned unchanged and the trace
contains no construction or activation call. -/
theorem C8_start_idempotent (s : CameraStreamer) (env env2 : GstEnv)
    (s' : CameraStreamer) (tr : List GstEffect)
    (h : s.start env = (s', Except.ok (), tr)) :
    s'.start env2 = (s', Except.ok (), [GstEffect.warn_already_running]) := by
  have hr := CameraStreamer.start_ok_running s env s' tr h
  unfold CameraStreamer.start
  rw [if_pos hr]

/-- C8 witness: a concrete successful start followed by a second start. -/
theorem C8_witness :
    ((freshStreamer.start goodEnv).1).start goodEnv
      = ((freshStreamer.start goodEnv).1, Except.ok (), [GstEffect.warn_already_running]) :=
  C8_start_idempotent freshStreamer goodEnv goodEnv
    ((freshStreamer.start goodEnv).1) ((freshStreamer.start goodEnv).2.2) rfl

/-- C3 (amended): a bus error message delivered while the notification loop
reference is set makes the handler quit the loop (requesting the
notification loop's termination) but records no fault: every instance
attribute is unchanged, and is_streaming() still returns the old
is_running value (true while Running) until stop() is called. -/
theorem C3_amended_no_fault_flag (s : CameraStreamer) (d : String)
    (h : s.loop = true) :
    s.on_bus_message (GstMessage.error d) = (s, [GstEffect.loop_quit]) ∧
    (s.on_bus_message (GstMessage.error d)).1.is_streaming = s.is_running := by
  constructor
  · unfold CameraStreamer.on_bus_message
    rw [h]
    simp
  · rfl

/-- C3 witness at the concrete running streamer. -/
theorem C3_amended_witness :
    runningStreamer.on_bus_message (GstMessage.error "witness")
      = (runningStreamer, [GstEffect.loop_quit]) :=
  (C3_amended_no_fault_flag runningStreamer "witness" rfl).1

/-- The audio source kinds the builder recognizes other than NONE. -/
def audio_recognized_non_none : AudioSource → Bool
  | .TEST_TONE => true
  | .ALSA => true
  | .PULSE => true
  | _ => false

/-- A start() from a non-running streamer with a recognized video source,
in an environment where construction and activation succeed, returns
without raising, references a video pipeline, and leaves the audio pipeline
reference exactly as it was (no audio pipeline is ever constructed). -/
lemma CameraStreamer.start_success_video_only (s : CameraStreamer) (env : GstEnv)
    (hir : s.is_running = false) (hrec : s.video_source.recognized = true)
    (hp : env.parse_launch_ok = true) (hf : env.play_ret_failure = false) :
    (s.start env).2.1 = Except.ok () ∧
    (s.start env).1.video_pipeline.isSome = true ∧
    (s.start env).1.audio_pipeline = s.audio_pipeline := by
  obtain ⟨vs, asrc, url, w, hgt, fr, br, adev, abr, hwe, vp, ap, lp, th, ir, sr⟩ := s
  obtain ⟨pok, pfail⟩ := env
  cases ir with
  | true => exact Bool.noConfusion hir
  | false =>
    cases pok with
    | false => exact Bool.noConfusion hp
    | true =>
      cases pfail with
      | true => exact Bool.noConfusion hf
      | false =>
        cases vs with
        | unknown r => exact Bool.noConfusion hrec
        | TEST_PATTERN => exact ⟨rfl, rfl, rfl⟩
        | V4L2 => exact ⟨rfl, rfl, rfl⟩
        | LIBCAMERA => exact ⟨rfl, rfl, rfl⟩

/-- C9: with audio source kind NONE no audio stage is emitted; with any
other recognized audio source kind the audio builder returns the
non-fatal Unsupported signal (it never raises), and start() still
activates a video-only pipeline: it succeeds, references a video pipeline,
and constructs no audio pipeline. -/
theorem C9_audio_degraded (s : CameraStreamer) (env : GstEnv) :
    (s.audio_source = AudioSource.NONE →
      s.build_audio_pipeline_string = Except.ok AudioBuildResult.no_audio) ∧
    (audio_recognized_non_none s.audio_source = true →
      (∃ src, s.build_audio_pipeline_string = Except.ok (AudioBuildResult.unsupported src)) ∧
      (s.is_running = false → s.video_source.recognized = true →
        env.parse_launch_ok = true → env.play_ret_failure = false →
        (s.start env).2.1 = Except.ok () ∧
        (s.start env).1.video_pipeline.isSome = true ∧
        (s.start env).1.audio_pipeline = s.audio_pipeline)) := by
  refine ⟨?_, ?_⟩
  · intro h
    unfold CameraStreamer.build_audio_pipeline_string
    rw [h]
  · intro h
    refine ⟨?_, fun hir hrec hp hf =>
      CameraStreamer.start_success_video_only s env hir hrec hp hf⟩
    rcases ha : s.audio_source with _ | _ | _ | _ | r
    · exact ⟨_, by unfold CameraStreamer.build_audio_pipeline_string; rw [ha]⟩
    · rcases hd : s.audio_device with - | d
      · exact ⟨"alsasrc", by
          unfold CameraStreamer.build_audio_pipeline_string
          rw [ha, hd]⟩
      · exact ⟨"alsasrc device=" ++ d, by
          unfold CameraStreamer.build_audio_pipeline_string
          rw [ha, hd]⟩
    · exact ⟨_, by unfold CameraStreamer.build_audio_pipeline_string; rw [ha]⟩
    · rw [ha] at h
      exact Bool.noConfusion h
    · rw [ha] at h
      exact Bool.noConfusion h

/-- C9 witness at the concrete ALSA-audio streamer in the good env. -/
theorem C9_witness :
    (∃ src, alsaStreamer.build_audio_pipeline_string
        = Except.ok (AudioBuildResult.unsupported src)) ∧
    (alsaStreamer.start goodEnv).2.1 = Except.ok () ∧
    (alsaStreamer.start goodEnv).1.audio_pipeline = alsaStreamer.audio_pipeline := by
  have h := (C9_audio_degraded alsaStreamer goodEnv).2 rfl
  exact ⟨h.1, (h.2 rfl rfl rfl rfl).1, (h.2 rfl rfl rfl rfl).2.2⟩

/-- A coordinator start() that returns without raising leaves the state at
RUNNING. -/
lemma DoorbellManager.start_ok_state (m : DoorbellManager) (env : GstEnv)
    (m1 : DoorbellManager) (u : Unit) (h : m.start env = (m1, Except.ok u)) :
    m1.state = DoorbellState.RUNNING := by
  unfold DoorbellManager.start at h
  split at h
  next hr =>
    simp only [Prod.mk.injEq] at h
    obtain ⟨rfl, -⟩ := h
    exact hr
  next hr =>
    rcases hsc : ({ m with state := DoorbellState.STARTING } : DoorbellManager).start_camera env
      with ⟨m2, r⟩
    rw [hsc] at h
    cases r with
    | error e => simp at h
    | ok v =>
        simp only [Prod.mk.injEq] at h
        obtain ⟨rfl, -⟩ := h
        rfl

/-- C10: whenever the coordinator's blocking run() returns (the supervisory
loop exited normally or by a caught exception), the final stop() has been
executed: the state on return is STOPPED and no camera streamer is
referenced. -/
theorem C10_run_returns_stopped (m : DoorbellManager) (env : GstEnv)
    (exitKind : LoopExit) (m' : DoorbellManager)
    (h : m.run env exitKind = (m', Except.ok ())) :
    m'.state = DoorbellState.STOPPED ∧ m'.camera_streamer = none := by
  unfold DoorbellManager.run at h
  rcases hs : m.start env with ⟨m1, r⟩
  rw [hs] at h
  cases r with
  | error e => simp at h
  | ok u =>
      have hrun := DoorbellManager.start_ok_state m env m1 u hs
      cases exitKind with
      | normal =>
          simp only [Prod.mk.injEq] at h
          obtain ⟨hm, -⟩ := h
          rw [← hm]
          exact DoorbellManager.stop_resets m1 (by rw [hrun]; decide)
      | caught e2 =>
          simp only [Prod.mk.injEq] at h
          obtain ⟨hm, -⟩ := h
          rw [← hm]
          exact DoorbellManager.stop_resets m1 (by rw [hrun]; decide)

/-- C10 witness: a concrete run with the default config, a successful
environment and a normal loop exit. -/
theorem C10_witness :
    (((DoorbellManager.init none).run goodEnv LoopExit.normal).1).state
      = DoorbellState.STOPPED :=
  (C10_run_returns_stopped (DoorbellManager.init none) goodEnv LoopExit.normal
    (((DoorbellManager.init none).run goodEnv LoopExit.normal).1) rfl).1

end Doorbell
